import Mathlib

/-!
Verification of the Rendering & Assembly Engine of the animation-generator
repository (`src/api/production/orchestrator.py`, class `BibleOrchestrator`,
helpers in `src/api/production/validators.py`).

Shallow embedding conventions:
* The filesystem is a map from path strings to file sizes (`FS`); `os.path.exists`
  and `os.path.getsize` are read off that map.
* The external Media Transcoding Engine (ffmpeg, invoked through the source's
  shell-command runner at orchestrator.py line 52) is an oracle `Env.run`
  deciding success per submitted command, together with `Env.outSize`, the size
  of the output file a successful invocation writes.  A successful engine call
  creates its output file; a failed call is modelled as leaving the filesystem
  unchanged.
* `ffprobe` durations (`get_duration`, validators.py line 95 — returns a 0.0
  sentinel on unreadable input, never raising) are the total oracle `Env.dur`,
  valued in ℚ.
* Every ffmpeg invocation of the engine is recorded as a `Cmd` value carrying
  the inputs and computed parameters that the source interpolates into the
  command line; functions return their boolean/optional result, the filesystem
  after the call, and the list of engine invocations performed.
-/

namespace AnimGen

/-!
Arithmetic and string helpers.  Division, subtraction and `max` on ℚ are
expressed through `Rat.divInt` so that every definition below evaluates by
kernel reduction on concrete inputs (the standard field operations on ℚ are
irreducible); the lemmas `rat_div_eq`, `rat_sub_eq` and `rat_max_eq` identify
them with the standard operations.  `str_replace` is Python's
`str.replace(old, new)` (replace every non-overlapping occurrence, scanning
left to right), written with explicit fuel so it, too, reduces.
-/

/-- Division on ℚ, reducibly: `a / b` as a ratio of integers. -/
def rat_div (a b : ℚ) : ℚ :=
  Rat.divInt (a.num * (b.den : Int)) ((a.den : Int) * b.num)

/-- Subtraction on ℚ, reducibly. -/
def rat_sub (a b : ℚ) : ℚ :=
  Rat.divInt (a.num * (b.den : Int) - b.num * (a.den : Int))
    ((a.den : Int) * (b.den : Int))

/-- Maximum on ℚ, reducibly. -/
def rat_max (a b : ℚ) : ℚ :=
  if a ≤ b then b else a

/-- Auxiliary scanner for `str_replace`; the fuel dominates the input length. -/
def replaceAux (old new : List Char) : Nat → List Char → List Char
  | 0, s => s
  | _ + 1, [] => []
  | fuel + 1, c :: rest =>
      if old.isPrefixOf (c :: rest) then
        new ++ replaceAux old new fuel ((c :: rest).drop old.length)
      else
        c :: replaceAux old new fuel rest

/-- Python `s.replace(old, new)` for non-empty `old` (the source only ever
replaces the non-empty literals ".mp4"). -/
def str_replace (s old new : String) : String :=
  if old = "" then s
  else String.mk (replaceAux old.data new.data s.data.length s.data)

/-- Filesystem model: a path is mapped to `some size` when a file exists there. -/
def FS : Type := String → Option Nat

/-- Python `os.path.exists`. -/
def os_path_exists (fs : FS) (p : String) : Bool :=
  (fs p).isSome

/-- Python `os.path.getsize` (0 for a missing file; the source only calls it
on paths it has just existence-checked). -/
def os_path_getsize (fs : FS) (p : String) : Nat :=
  (fs p).getD 0

/-- Create or overwrite a file of the given size. -/
def FS.set (fs : FS) (p : String) (sz : Nat) : FS :=
  fun q => if q = p then some sz else fs q

/-- Python `os.remove`. -/
def FS.remove (fs : FS) (p : String) : FS :=
  fun q => if q = p then none else fs q

/-- Python `shutil.rmtree dir`: every path under the directory disappears. -/
def FS.rmtree (fs : FS) (dir : String) : FS :=
  fun q => if (dir ++ "/").data.isPrefixOf q.data then none else fs q

/-- Python `f"{n:03d}"`: zero-pad to overall width 3 (sign included). -/
def format03 (n : Int) : String :=
  let digits := toString n.natAbs
  if n < 0 then
    "-" ++ (if digits.length ≥ 2 then digits
            else String.mk (List.replicate (2 - digits.length) '0') ++ digits)
  else
    (if digits.length ≥ 3 then digits
     else String.mk (List.replicate (3 - digits.length) '0') ++ digits)

/-- One invocation of the external Media Transcoding Engine.  Each constructor
corresponds to one ffmpeg command line built by the source and carries the
file arguments and the computed parameters interpolated into it
(`orchestrator.py`: veo base render 574, mix render 652, tts base render 752,
subtitle burn-in 602/682/785, audio pre-normalization 1088, concat 1108,
CTA overlay 1152). -/
inductive Cmd
  | veoBase (video_path temp_path : String) (shorts : Bool)
  | mixRender (video_path audio_path temp_path : String) (shorts : Bool)
  | ttsBase (video_path audio_path : String) (atempo : Option ℚ)
      (duration_to_use : ℚ) (temp_path : String) (shorts : Bool)
  | subtitleBurn (temp_path vtt_path output_path : String)
  | normalizeAudio (src dst : String)
  | concatClips (list_path output_path : String)
  | ctaOverlay (video_path cta_path output_path : String)
      (start_time duration : ℚ) (is_shorts : Bool)
deriving DecidableEq

/-- External collaborators: the transcoding engine (success oracle plus the
size of the output file it writes on success) and the duration probe. -/
structure Env where
  run : Cmd → Bool
  outSize : Cmd → Nat
  dur : String → ℚ

/-- One scene record as consumed by `render_scene` (`scene_data`): the id plus
the two fields read from the loosely-typed dict, with Python `.get` defaults. -/
structure SceneData where
  id : Int
  audio_priority : String := "tts"
  skip_tts : Bool := false
deriving DecidableEq

/-- Audio-policy resolution of `render_scene` (orchestrator.py lines 542-553):
find the scene record by id, default the priority to "tts", and map the legacy
`skip_tts` flag to "veo". -/
def audio_priority_of (scenes : List SceneData) (scene_id : Int) : String :=
  match scenes.find? (fun s => s.id == scene_id) with
  | none => "tts"
  | some sd =>
      if sd.audio_priority = "tts" ∧ sd.skip_tts then "veo" else sd.audio_priority

/-- Subtitle burn-in pass shared (as literally duplicated code) by the veo, mix
and tts branches of `render_scene` (orchestrator.py lines 590-618, 670-700,
771-804): if a non-trivial VTT file exists, re-encode `temp_path` burning the
captions into `output_path`, then delete the temp file whether or not the pass
succeeded; otherwise rename the temp file to the final output.  `prev` is the
invocation log accumulated by the calling branch. -/
def subtitle_pass (env : Env) (fs : FS) (temp_path vtt_path output_path : String)
    (prev : List Cmd) : Bool × FS × List Cmd :=
  if os_path_exists fs vtt_path = true ∧ os_path_getsize fs vtt_path > 10 then
    let c := Cmd.subtitleBurn temp_path vtt_path output_path
    let success := env.run c
    let fs1 := if success then fs.set output_path (env.outSize c) else fs
    let fs2 := if os_path_exists fs1 temp_path = true then fs1.remove temp_path else fs1
    (success, fs2, prev ++ [c])
  else
    let fs1 :=
      if os_path_exists fs temp_path = true then
        (fs.remove temp_path).set output_path (os_path_getsize fs temp_path)
      else fs
    (true, fs1, prev)

/-- `BibleOrchestrator.render_scene` (orchestrator.py lines 519-807).  Returns
the boolean result, the filesystem afterwards, and the engine invocations made.
The path arguments stand for the `self.pm.get_*_path(scene_id)` lookups the
source performs at entry.  Note that when `audio_priority` is "mix" and the
narration file is missing, the source sets `audio_priority = "veo"` (line 630)
but the veo branch has already been passed, so control falls through to the
default TTS block, mirrored here by the final `else`. -/
def render_scene (env : Env) (fs : FS) (scenes : List SceneData) (shorts : Bool)
    (video_path audio_path vtt_path output_path : String) (scene_id : Int) :
    Bool × FS × List Cmd :=
  if os_path_exists fs output_path = true ∧
      os_path_getsize fs output_path > 1024 * 1024 then
    (true, fs, [])
  else if os_path_exists fs video_path = false then
    (false, fs, [])
  else
    let audio_priority := audio_priority_of scenes scene_id
    let temp_path := str_replace output_path ".mp4" "_temp.mp4"
    if audio_priority = "veo" then
      let c := Cmd.veoBase video_path temp_path shorts
      if env.run c then
        subtitle_pass env (fs.set temp_path (env.outSize c)) temp_path vtt_path
          output_path [c]
      else (false, fs, [c])
    else if audio_priority = "mix" ∧ os_path_exists fs audio_path = true then
      let c := Cmd.mixRender video_path audio_path temp_path shorts
      if env.run c then
        subtitle_pass env (fs.set temp_path (env.outSize c)) temp_path vtt_path
          output_path [c]
      else (false, fs, [c])
    else
      if os_path_exists fs audio_path = false then
        (false, fs, [])
      else
        let audio_duration := env.dur audio_path
        let video_duration := env.dur video_path
        if audio_duration ≤ 0 then
          (false, fs, [])
        else
          let p : Option ℚ × ℚ :=
            if 0 < video_duration ∧ video_duration < audio_duration then
              let speed := rat_div audio_duration video_duration
              if speed > Rat.divInt 21 20 then (some speed, video_duration)
              else (none, audio_duration)
            else (none, audio_duration)
          let c := Cmd.ttsBase video_path audio_path p.1 p.2 temp_path shorts
          if env.run c then
            subtitle_pass env (fs.set temp_path (env.outSize c)) temp_path
              vtt_path output_path [c]
          else (false, fs, [c])

/-- Insert into an ascending list, keeping ascending order. -/
def insort (n : Int) : List Int → List Int
  | [] => [n]
  | m :: rest => if n ≤ m then n :: m :: rest else m :: insort n rest

/-- Python `sorted` on a list of ints: the ascending reordering (stability is
vacuous for ints, so insertion sort realizes it exactly). -/
def sorted_ints : List Int → List Int
  | [] => []
  | n :: rest => insort n (sorted_ints rest)

/-- Clip-id filter of `merge_clips` (orchestrator.py lines 1069-1073): scene
ids whose rendered clip file exists with size strictly greater than 1024 bytes,
in script order. -/
def valid_clip_ids (fs : FS) (scenes : List SceneData) (clipPath : Int → String) :
    List Int :=
  scenes.filterMap (fun s =>
    if os_path_exists fs (clipPath s.id) = true ∧
        os_path_getsize fs (clipPath s.id) > 1024 then
      some s.id
    else none)

/-- Normalized-copy destination inside the ephemeral working area
(orchestrator.py line 1087: `os.path.join(norm_dir, f"clip_{idx:03d}.mp4")`). -/
def norm_dst (norm_dir : String) (idx : Int) : String :=
  norm_dir ++ "/clip_" ++ format03 idx ++ ".mp4"

/-- Audio pre-normalization loop of `merge_clips` (orchestrator.py lines
1085-1098): re-encode each clip's audio to 48 kHz stereo into the working area,
returning failure as soon as one invocation fails. -/
def normalize_loop (env : Env) (clipPath : Int → String) (norm_dir : String) :
    List Int → FS → Bool × FS × List Cmd
  | [], fs => (true, fs, [])
  | idx :: rest, fs =>
      let c := Cmd.normalizeAudio (clipPath idx) (norm_dst norm_dir idx)
      if env.run c then
        let r := normalize_loop env clipPath norm_dir rest
          (fs.set (norm_dst norm_dir idx) (env.outSize c))
        (r.1, r.2.1, c :: r.2.2)
      else (false, fs, [c])

/-- Fixed end-card asset path of `_apply_universal_cta` (orchestrator.py line
1131: `os.path.join("data", "assets", "cta", "veo_cta.mp4")`). -/
def veo_cta_path : String := "data/assets/cta/veo_cta.mp4"

/-- `BibleOrchestrator._apply_universal_cta` (orchestrator.py lines 1128-1181):
probe the merged video's duration, overlay the chroma-keyed end-card over the
trailing 5-second window, and on success move the overlaid file back onto the
input path.  A missing end-card asset or a failed engine call returns the input
path with its file untouched (a failed call's partial output is removed); the
source additionally wraps the body in a catch-all `except` returning the input
path, which the total model never needs. -/
def apply_universal_cta (env : Env) (fs : FS) (video_path : String)
    (is_shorts : Bool) : String × FS × List Cmd :=
  if os_path_exists fs veo_cta_path = false then
    (video_path, fs, [])
  else
    let duration := env.dur video_path
    let start_time := rat_max 0 (rat_sub duration 5)
    let output_path := str_replace video_path ".mp4" "_cta.mp4"
    let c := Cmd.ctaOverlay video_path veo_cta_path output_path start_time
      duration is_shorts
    if env.run c then
      let fs1 := fs.set output_path (env.outSize c)
      let fs2 := (fs1.remove output_path).set video_path
        (os_path_getsize fs1 output_path)
      (video_path, fs2, [c])
    else
      let fs1 :=
        if os_path_exists fs output_path = true then fs.remove output_path else fs
      (video_path, fs1, [c])

/-- `BibleOrchestrator.merge_clips` (orchestrator.py lines 1060-1126): filter
to scene ids with an existing clip larger than 1024 bytes, fail when none,
pre-normalize the survivors' audio in ascending id order into an ephemeral
`_normalized` area, write the concat list (a small text file, modelled with
size 1), stream-copy concatenate into the final output, clean the working area
on success, and conditionally hand the result to the CTA overlay compositor
(shorts chapters and the designated intro chapter 0). -/
def merge_clips (env : Env) (fs : FS) (scenes : List SceneData)
    (clipPath : Int → String) (render_dir output : String)
    (shorts : Bool) (chapter_idx : Option Int) :
    Option String × FS × List Cmd :=
  let clip_ids := valid_clip_ids fs scenes clipPath
  if clip_ids = [] then
    (none, fs, [])
  else
    let norm_dir := render_dir ++ "/_normalized"
    let r := normalize_loop env clipPath norm_dir (sorted_ints clip_ids) fs
    if r.1 = false then
      (none, r.2.1, r.2.2)
    else
      let norm_concat := norm_dir ++ "/concat_list.txt"
      let fs1 := r.2.1.set norm_concat 1
      let c := Cmd.concatClips norm_concat output
      if env.run c then
        let fs2 := (fs1.set output (env.outSize c)).rmtree norm_dir
        if shorts = true ∨ chapter_idx = some 0 then
          let ac := apply_universal_cta env fs2 output shorts
          (some ac.1, ac.2.1, r.2.2 ++ [c] ++ ac.2.2)
        else
          (some output, fs2, r.2.2 ++ [c])
      else
        (none, fs1, r.2.2 ++ [c])

/-- Recognizer for audio pre-normalization invocations, used to state which
clips entered the concatenation. -/
def is_normalize : Cmd → Bool
  | .normalizeAudio _ _ => true
  | _ => false

/-- One intro slot, as read from the ch00 script by `assemble_intro`
(orchestrator.py lines 914-916, 952): the scene id and the fields fed to the
scoring function.  The free-text prompt fields only enter through the score
parameter below, so they are not reproduced here. -/
structure IntroScene where
  id : Int
deriving DecidableEq

/-- One catalog entry built by `assemble_intro` (orchestrator.py lines
895-904): the source chapter/scene identity plus the source video path that
`path_manager.get_scene_video_path(scene_id)` resolves to.  The narration,
characters and prompt fields only enter through the score parameter. -/
structure SourceScene where
  chapter_idx : Int
  scene_id : Int
  video_path : String
deriving DecidableEq

/-- One entry of `intro_manual_map.json` (orchestrator.py lines 920-923). -/
structure ManualEntry where
  source_chapter : Int
  source_scene : Int
deriving DecidableEq

inductive MatchMethod
  | manual
  | auto
deriving DecidableEq

/-- One entry of the persisted `intro_assembly_map.json` audit list
(orchestrator.py lines 934-941 and 979-988).  The source also persists
narration excerpts, the rationale string and the rounded score — display-only
fields that no decision reads back; they are omitted here. -/
structure MatchRecord where
  intro_scene : Int
  source_chapter : Int
  source_scene : Int
  method : MatchMethod
deriving DecidableEq

/-- Penalized score of one candidate for the current slot (orchestrator.py
lines 959-965): the composite similarity score minus a flat 0.3 when the
candidate was already assigned to an earlier slot in this run. -/
def penalized (score : SourceScene → ℚ) (used : List (Int × Int))
    (src : SourceScene) : ℚ :=
  rat_sub (score src)
    (if (src.chapter_idx, src.scene_id) ∈ used then Rat.divInt 3 10 else 0)

/-- The candidate loop of the automatic branch (orchestrator.py lines
955-969): running maximum of the penalized score, starting from -1 with no
candidate, replacing only on a strict improvement (so the earliest candidate
wins ties). -/
def select_best_loop (score : SourceScene → ℚ) (used : List (Int × Int)) :
    List SourceScene → ℚ → Option SourceScene → ℚ × Option SourceScene
  | [], best_score, best_source => (best_score, best_source)
  | src :: rest, best_score, best_source =>
      let s := penalized score used src
      if s > best_score then select_best_loop score used rest s (some src)
      else select_best_loop score used rest best_score best_source

/-- The per-slot assembly loop of `assemble_intro` (orchestrator.py lines
914-995), which fills the persisted `mapping` audit list.  Parameters:
`score slot src` stands for `_scene_match_score` over the slot's and
candidate's narration, characters and prompt fields (orchestrator.py lines
1015-1056; its text-similarity component delegates to Python's difflib, an
external library, so the composite is kept as a parameter); `chPm` is the
chapter path-manager lookup (`chapter_pms.get(...) or proj.get_chapter_pm(...)`),
`introPath` is `self.pm.get_scene_video_path`, `manual_map` the curated
override table.  A slot with a resolvable manual entry whose source video
exists on disk is assigned manually; otherwise the best automatic candidate is
taken; when no candidate exists at all the source only logs a warning and
appends no record.  Assignments copy the source video onto the slot's path
(`shutil.copy2`) and mark the source used. -/
def assemble_intro_loop (score : IntroScene → SourceScene → ℚ)
    (chPm : Int → Option (Int → String)) (introPath : Int → String)
    (manual_map : Int → Option ManualEntry) (catalog : List SourceScene) :
    List IntroScene → List (Int × Int) → FS → List MatchRecord × FS
  | [], _, fs => ([], fs)
  | slot :: rest, used, fs =>
      let manual_result : Option (MatchRecord × List (Int × Int) × FS) :=
        match manual_map slot.id with
        | some entry =>
            match chPm entry.source_chapter with
            | some pathf =>
                if os_path_exists fs (pathf entry.source_scene) = true then
                  some (⟨slot.id, entry.source_chapter, entry.source_scene,
                          MatchMethod.manual⟩,
                        used ++ [(entry.source_chapter, entry.source_scene)],
                        fs.set (introPath slot.id)
                          (os_path_getsize fs (pathf entry.source_scene)))
                else none
            | none => none
        | none => none
      match manual_result with
      | some (mr, used1, fs1) =>
          let r := assemble_intro_loop score chPm introPath manual_map catalog
            rest used1 fs1
          (mr :: r.1, r.2)
      | none =>
          let best := select_best_loop (score slot) used catalog (-1) none
          match best.2 with
          | some src =>
              let fs1 := fs.set (introPath slot.id)
                (os_path_getsize fs src.video_path)
              let r := assemble_intro_loop score chPm introPath manual_map
                catalog rest (used ++ [(src.chapter_idx, src.scene_id)]) fs1
              (⟨slot.id, src.chapter_idx, src.scene_id, MatchMethod.auto⟩ :: r.1,
               r.2)
          | none =>
              assemble_intro_loop score chPm introPath manual_map catalog rest
                used fs

/-- Empty filesystem, for concrete witnesses. -/
def no_file : FS := fun _ => none

/-- Engine oracle that succeeds on everything, for concrete witnesses. -/
def env_all_ok : Env := ⟨fun _ => true, fun _ => 5000000, fun _ => 10⟩

/-- Filesystem with a valid 2 MiB clip already rendered, for the C5 witness. -/
def fs_done_clip : FS := no_file.set "clip_001.mp4" (2 * 1024 * 1024)

/-- Source video and narration audio on disk, no clip yet (C3 witness). -/
def fs_tts_inputs : FS := (no_file.set "v.mp4" 5000).set "a.mp3" 3000

/-- Probe oracle giving video 5 s and narration 8 s (C3 witness, first case). -/
def env_tts_5_8 : Env :=
  ⟨fun _ => true, fun _ => 4000000, fun p => if p = "a.mp3" then 8 else 5⟩

/-- Probe oracle giving video 7.8 s and narration 8 s (C3 witness, second
case). -/
def env_tts_78_8 : Env :=
  ⟨fun _ => true, fun _ => 4000000,
   fun p => if p = "a.mp3" then 8 else Rat.divInt 39 5⟩

/-- Source video present, narration audio missing (C2 failing input). -/
def fs_mix_missing : FS := no_file.set "v.mp4" 5000

/-- Clip path layout used in the merge witnesses (`clip_{id:03d}.mp4`). -/
def clip_path_w : Int → String := fun i => "clips/clip_" ++ format03 i ++ ".mp4"

/-- Only scene 1's clip exists (2 MiB); scene 2 has no clip at all. -/
def fs_one_clip : FS := no_file.set "clips/clip_001.mp4" 2097152

/-- A 2000-byte clip: above the merge filter's 1024-byte bar, far below the
1 MiB validity threshold of §4.1. -/
def fs_small_clip : FS := no_file.set "clips/clip_001.mp4" 2000

/-- Engine oracle for the C9 scenario: every base render succeeds, every
subtitle burn-in fails. -/
def env_burn_fails : Env :=
  ⟨fun c => match c with | .subtitleBurn _ _ _ => false | _ => true,
   fun _ => 7777, fun p => if p = "a.mp3" then 8 else 5⟩

/-- Source video, narration audio and a non-trivial VTT caption on disk; no
clip yet (C9 scenario). -/
def fs_burn_inputs : FS :=
  ((no_file.set "v.mp4" 5000).set "a.mp3" 3000).set "s.vtt" 50

/-- The overlay command `_apply_universal_cta` submits for a given merged
video: end-card asset, trailing-window start `max 0 (D - 5)`, and the
format-dependent placement selected by `is_shorts`. -/
def cta_cmd (env : Env) (video_path : String) (is_shorts : Bool) : Cmd :=
  Cmd.ctaOverlay video_path veo_cta_path
    (str_replace video_path ".mp4" "_cta.mp4")
    (rat_max 0 (rat_sub (env.dur video_path) 5)) (env.dur video_path) is_shorts

/-- Engine oracle that fails exactly the CTA overlay command. -/
def env_cta_fails : Env :=
  ⟨fun c => match c with | .ctaOverlay _ _ _ _ _ _ => false | _ => true,
   fun _ => 4000000, fun _ => 30⟩

/-- A merged 3 MB chapter video plus the end-card asset on disk. -/
def fs_merged : FS :=
  (no_file.set "final.mp4" 3000000).set "data/assets/cta/veo_cta.mp4" 900

/-- Zero scoring function, for the C6 counterexample. -/
def score_zero : IntroScene → SourceScene → ℚ := fun _ _ => 0

/-- Empty chapter path-manager table. -/
def no_chapter_pm : Int → Option (Int → String) := fun _ => none

/-- Intro scene destination paths. -/
def intro_dst : Int → String := fun i => "ch00/scene_" ++ format03 i ++ ".mp4"

/-- Empty manual-override map. -/
def no_manual : Int → Option ManualEntry := fun _ => none

/-- Manual map sending slot 10 to chapter 3, scene 4 (C7 witness). -/
def manual_map_w : Int → Option ManualEntry :=
  fun i => if i = 10 then some ⟨3, 4⟩ else none

/-- Chapter path managers: only chapter 3 resolves (C7 witness). -/
def ch_pm_w : Int → Option (Int → String) :=
  fun c => if c = 3 then
    some (fun s => "ch03/scene_" ++ format03 s ++ ".mp4") else none

/-- The manually referenced source video is on disk (C7 witness). -/
def fs_manual : FS := no_file.set "ch03/scene_004.mp4" 1234

/-- Scoring function under which every automatic candidate scores the maximal
1.0 (C7 witness: an automatic candidate scoring higher than anything must
still lose to the manual entry). -/
def score_high : IntroScene → SourceScene → ℚ := fun _ _ => 1

/-- Two-candidate corpus (chapter 1 scene 1, chapter 2 scene 2) used by the
matcher witnesses. -/
def catalog_ab : List SourceScene := [⟨1, 1, "a.mp4"⟩, ⟨2, 2, "b.mp4"⟩]

/-- Scores matching the claim's first numeric scenario: candidate A (chapter 1
scene 1) raw 0.60, candidate B (chapter 2 scene 2) raw 0.85. -/
def score_ab : IntroScene → SourceScene → ℚ :=
  fun _ c => if c.scene_id = 1 then Rat.divInt 3 5 else Rat.divInt 17 20

/-- Scores for the second scenario: B raw 0.95. -/
def score_ab2 : IntroScene → SourceScene → ℚ :=
  fun _ c => if c.scene_id = 1 then Rat.divInt 3 5 else Rat.divInt 19 20

theorem rat_div_eq (a b : ℚ) : rat_div a b = a / b := by
  rw [rat_div, Rat.divInt_eq_div]
  rcases eq_or_ne b 0 with hb | hb
  · subst hb
    simp
  · have hbn : (b.num : ℚ) ≠ 0 := by
      exact_mod_cast Rat.num_ne_zero.mpr hb
    have had : ((a.den : ℤ) : ℚ) ≠ 0 := by
      exact_mod_cast Int.ofNat_ne_zero.mpr a.den_nz
    have ha : (a.num : ℚ) = a * (a.den : ℚ) := by
      field_simp
    have hbq : (b.num : ℚ) = b * (b.den : ℚ) := by
      field_simp
    push_cast
    rw [div_eq_div_iff (by exact mul_ne_zero had hbn) hb, ha, hbq]
    ring

theorem rat_sub_eq (a b : ℚ) : rat_sub a b = a - b := by
  rw [rat_sub, Rat.divInt_eq_div]
  have had : ((a.den : ℤ) : ℚ) ≠ 0 := by
    exact_mod_cast Int.ofNat_ne_zero.mpr a.den_nz
  have hbd : ((b.den : ℤ) : ℚ) ≠ 0 := by
    exact_mod_cast Int.ofNat_ne_zero.mpr b.den_nz
  have ha : (a.num : ℚ) = a * (a.den : ℚ) := by
    field_simp
  have hb : (b.num : ℚ) = b * (b.den : ℚ) := by
    field_simp
  push_cast
  rw [div_eq_iff (by exact mul_ne_zero had hbd), ha, hb]
  ring

theorem rat_max_eq (a b : ℚ) : rat_max a b = max a b := by
  rw [rat_max, max_def]

/-!
Claim theorems.
-/

theorem divInt_21_20 : Rat.divInt 21 20 = (21 : ℚ) / 20 := by
  rw [Rat.divInt_eq_div]
  norm_num

theorem divInt_3_10 : Rat.divInt 3 10 = (3 : ℚ) / 10 := by
  rw [Rat.divInt_eq_div]
  norm_num

/-- The log of a subtitle pass begins with the base command it was handed. -/
theorem subtitle_pass_log_head (env : Env) (fs : FS)
    (temp_path vtt_path output_path : String) (c0 : Cmd) :
    (subtitle_pass env fs temp_path vtt_path output_path [c0]).2.2.head? = some c0 := by
  unfold subtitle_pass
  split <;> simp

/-- The tail shared by the three render branches: run the base command, then
the subtitle pass; the log starts with the base command either way. -/
theorem render_tail_head (env : Env) (fs : FS)
    (temp_path vtt_path output_path : String) (c : Cmd) :
    ((if env.run c = true then
        subtitle_pass env (fs.set temp_path (env.outSize c)) temp_path vtt_path
          output_path [c]
      else (false, fs, [c])).2.2).head? = some c := by
  split
  · exact subtitle_pass_log_head _ _ _ _ _ _
  · rfl

/-- C5: rendering is idempotent.  When the output clip already exists with
size above the 1 MiB validity threshold, `render_scene` returns success with
no engine invocation and an unchanged filesystem (orchestrator.py lines
531-534), and a second invocation from the resulting state does the same —
so two consecutive calls both succeed while transcoding work happens at most
once (here: zero times). -/
theorem render_scene_idempotent (env : Env) (fs : FS) (scenes : List SceneData)
    (shorts : Bool) (video_path audio_path vtt_path output_path : String)
    (scene_id : Int)
    (h : os_path_exists fs output_path = true ∧
      os_path_getsize fs output_path > 1024 * 1024) :
    render_scene env fs scenes shorts video_path audio_path vtt_path output_path
      scene_id = (true, fs, []) ∧
    render_scene env
      (render_scene env fs scenes shorts video_path audio_path vtt_path
        output_path scene_id).2.1
      scenes shorts video_path audio_path vtt_path output_path scene_id =
      (true, fs, []) := by
  have h1 : render_scene env fs scenes shorts video_path audio_path vtt_path
      output_path scene_id = (true, fs, []) := by
    unfold render_scene
    rw [if_pos h]
  refine ⟨h1, ?_⟩
  rw [h1]
  exact h1

/-- Witness for C5 at a concrete state: a 2 MiB clip is already on disk, and
both calls return success with no invocations. -/
theorem render_scene_idempotent_witness :
    render_scene env_all_ok fs_done_clip
      [] false "v.mp4" "a.mp3" "s.vtt" "clip_001.mp4" 1 =
      (true, fs_done_clip, []) ∧
    render_scene env_all_ok
      (render_scene env_all_ok fs_done_clip
        [] false "v.mp4" "a.mp3" "s.vtt" "clip_001.mp4" 1).2.1
      [] false "v.mp4" "a.mp3" "s.vtt" "clip_001.mp4" 1 =
      (true, fs_done_clip, []) :=
  render_scene_idempotent _ _ _ _ _ _ _ _ _ (by decide)

/-- C3: duration reconciliation under the TTS policy.  With probed video
duration `v > 0` and narration duration `a > 0`, the base ttsBase engine
command (the first invocation of the render) carries an `atempo` retiming
factor exactly when `v < a` and `a / v > 1.05` (= 21/20), in which case the
factor is `a / v` and the `-t` output cap — the final clip duration — is `v`;
otherwise no retiming is requested and the cap is the narration duration `a`
(combined with the `-shortest` stop-at-shortest flag the source always passes).
Source: orchestrator.py lines 727-765. -/
theorem render_scene_tts_retime (env : Env) (fs : FS) (scenes : List SceneData)
    (shorts : Bool) (video_path audio_path vtt_path output_path : String)
    (scene_id : Int) (v a : ℚ)
    (hpr : audio_priority_of scenes scene_id = "tts")
    (hout : ¬ (os_path_exists fs output_path = true ∧
      os_path_getsize fs output_path > 1024 * 1024))
    (hvid : os_path_exists fs video_path = true)
    (haud : os_path_exists fs audio_path = true)
    (hdv : env.dur video_path = v) (hda : env.dur audio_path = a)
    (hv : 0 < v) (ha : 0 < a) :
    (render_scene env fs scenes shorts video_path audio_path vtt_path
      output_path scene_id).2.2.head? =
      some (Cmd.ttsBase video_path audio_path
        (if v < a ∧ (21 : ℚ) / 20 < a / v then some (a / v) else none)
        (if v < a ∧ (21 : ℚ) / 20 < a / v then v else a)
        (str_replace output_path ".mp4" "_temp.mp4") shorts) := by
  unfold render_scene
  rw [if_neg hout, if_neg (by simp [hvid]), if_neg (by simp [hpr]),
    if_neg (by simp [hpr]), if_neg (by simp [haud]), hda, hdv,
    if_neg (by exact not_le.mpr ha)]
  have hp : (if 0 < v ∧ v < a then
        if rat_div a v > Rat.divInt 21 20 then (some (rat_div a v), v)
        else (none, a)
      else (none, a)) =
      ((if v < a ∧ (21 : ℚ) / 20 < a / v then some (a / v) else none),
       (if v < a ∧ (21 : ℚ) / 20 < a / v then v else a)) := by
    rw [rat_div_eq, divInt_21_20]
    by_cases h1 : v < a
    · by_cases h2 : (21 : ℚ) / 20 < a / v
      · rw [if_pos ⟨hv, h1⟩, if_pos (by exact h2), if_pos ⟨h1, h2⟩,
          if_pos ⟨h1, h2⟩]
      · rw [if_pos ⟨hv, h1⟩, if_neg (by exact h2), if_neg (by simp [h2]),
          if_neg (by simp [h2])]
    · rw [if_neg (by simp [h1]), if_neg (by simp [h1]), if_neg (by simp [h1])]
  rw [hp]
  exact render_tail_head _ _ _ _ _ _

/-- Witness for C3 at the claim's two concrete inputs: `v = 5, a = 8` retimes
with factor 8/5 = 1.6 and caps the clip at 5 s; `v = 7.8, a = 8` (factor
about 1.0256, below 1.05) does not retime and leaves the narration duration
8 s governing the cap. -/
theorem render_scene_tts_retime_witness :
    (render_scene env_tts_5_8 fs_tts_inputs
      [] false "v.mp4" "a.mp3" "s.vtt" "o.mp4" 1).2.2.head? =
      some (Cmd.ttsBase "v.mp4" "a.mp3"
        (if (5 : ℚ) < 8 ∧ (21 : ℚ) / 20 < 8 / 5 then some ((8 : ℚ) / 5) else none)
        (if (5 : ℚ) < 8 ∧ (21 : ℚ) / 20 < 8 / 5 then (5 : ℚ) else 8)
        (str_replace "o.mp4" ".mp4" "_temp.mp4") false) ∧
    (render_scene env_tts_78_8 fs_tts_inputs
      [] false "v.mp4" "a.mp3" "s.vtt" "o.mp4" 1).2.2.head? =
      some (Cmd.ttsBase "v.mp4" "a.mp3"
        (if Rat.divInt 39 5 < (8 : ℚ) ∧ (21 : ℚ) / 20 < 8 / Rat.divInt 39 5 then
          some ((8 : ℚ) / Rat.divInt 39 5) else none)
        (if Rat.divInt 39 5 < (8 : ℚ) ∧ (21 : ℚ) / 20 < 8 / Rat.divInt 39 5 then
          Rat.divInt 39 5 else 8)
        (str_replace "o.mp4" ".mp4" "_temp.mp4") false) :=
  ⟨render_scene_tts_retime _ _ _ _ _ _ _ _ _ 5 8 rfl (by decide) (by decide)
      (by decide) rfl rfl (by norm_num) (by norm_num),
   render_scene_tts_retime _ _ _ _ _ _ _ _ _ (Rat.divInt 39 5) 8 rfl (by decide)
      (by decide) (by decide) rfl rfl (by norm_num [Rat.divInt_eq_div])
      (by norm_num)⟩

/-- C2: contrary to the specified MIX → SOURCE fallback, a Scene with
`audio_priority = "mix"` whose narration audio file is missing FAILS.  The
source logs "falling back to veo" and sets `audio_priority = "veo"`
(orchestrator.py line 630), but the veo branch was already passed — the inline
comment at line 629 concedes the fall-through "won't work" — so control drops
into the default TTS block, whose missing-audio guard (line 706) returns
`False` with no engine invocation.  Here: the scene's source video exists, no
clip exists yet, the narration asset does not exist, and the render reports
failure having done nothing. -/
theorem mix_missing_narration_fails :
    os_path_exists fs_mix_missing "a.mp3" = false ∧
    render_scene env_all_ok fs_mix_missing
      [⟨1, "mix", false⟩] false "v.mp4" "a.mp3" "s.vtt" "o.mp4" 1 =
      (false, fs_mix_missing, []) :=
  ⟨rfl, rfl⟩

/-- C1 counterexample: with expected scenes {1, 2} and only scene 1 holding a
valid clip, `merge_clips` still produces the chapter output file — the merge
over a proper subset of the expected scene ids succeeds, scene 2 being
silently dropped (orchestrator.py lines 1069-1077 filter, no completeness
check). -/
theorem merge_partial_subset_counterexample :
    os_path_exists fs_one_clip (clip_path_w 2) = false ∧
    (merge_clips env_all_ok fs_one_clip [⟨1, "tts", false⟩, ⟨2, "tts", false⟩]
      clip_path_w "render" "final.mp4" false none).1 = some "final.mp4" ∧
    os_path_exists
      (merge_clips env_all_ok fs_one_clip [⟨1, "tts", false⟩, ⟨2, "tts", false⟩]
        clip_path_w "render" "final.mp4" false none).2.1 "final.mp4" = true :=
  ⟨rfl, by decide, by decide⟩

/-- Successful audio pre-normalization performs exactly one normalizeAudio
invocation per id, in order. -/
theorem normalize_loop_cmds_of_success (env : Env) (clipPath : Int → String)
    (norm_dir : String) :
    ∀ (ids : List Int) (fs : FS),
      (normalize_loop env clipPath norm_dir ids fs).1 = true →
      (normalize_loop env clipPath norm_dir ids fs).2.2 =
        ids.map (fun i => Cmd.normalizeAudio (clipPath i) (norm_dst norm_dir i))
  | [], fs, _ => rfl
  | idx :: rest, fs, h => by
      unfold normalize_loop at h ⊢
      by_cases hrun : env.run
          (Cmd.normalizeAudio (clipPath idx) (norm_dst norm_dir idx)) = true
      · rw [if_pos hrun] at h ⊢
        simp only [List.map_cons, List.cons.injEq, true_and]
        exact normalize_loop_cmds_of_success env clipPath norm_dir rest _ h
      · rw [if_neg hrun] at h
        exact absurd h (by simp)

/-- The CTA overlay compositor never issues a normalizeAudio invocation. -/
theorem cta_cmds_not_normalize (env : Env) (fs : FS) (video_path : String)
    (is_shorts : Bool) :
    ∀ c ∈ (apply_universal_cta env fs video_path is_shorts).2.2,
      is_normalize c = false := by
  intro c hc
  simp only [apply_universal_cta] at hc
  split at hc
  · simp at hc
  · split at hc <;>
    · simp only [List.mem_singleton] at hc
      subst hc
      rfl

/-- The CTA overlay contributes nothing to the normalizeAudio filter. -/
theorem filter_cta_nil (env : Env) (fs : FS) (video_path : String)
    (is_shorts : Bool) :
    ((apply_universal_cta env fs video_path is_shorts).2.2.filter
      is_normalize) = [] := by
  rw [List.filter_eq_nil_iff]
  intro c hc
  simpa using cta_cmds_not_normalize env fs video_path is_shorts c hc

/-- C1 (amended): the Chapter Merger is not all-or-nothing over the expected
Scene ids.  When `merge_clips` produces an output, the set of clips that were
normalized and concatenated is exactly the set of scene ids whose clip file
currently exists with size > 1024 bytes, in ascending id order — which must be
non-empty but may be any proper subset of the expected scenes; the remaining
scenes are dropped from the chapter rather than blocking it.  Source:
orchestrator.py lines 1060-1126. -/
theorem merge_concats_exactly_valid_clips (env : Env) (fs : FS)
    (scenes : List SceneData) (clipPath : Int → String)
    (render_dir output : String) (shorts : Bool) (chapter_idx : Option Int)
    (h : (merge_clips env fs scenes clipPath render_dir output shorts
      chapter_idx).1.isSome = true) :
    valid_clip_ids fs scenes clipPath ≠ [] ∧
    ((merge_clips env fs scenes clipPath render_dir output shorts
        chapter_idx).2.2.filter is_normalize) =
      (sorted_ints (valid_clip_ids fs scenes clipPath)).map
        (fun i => Cmd.normalizeAudio (clipPath i)
          (norm_dst (render_dir ++ "/_normalized") i)) := by
  by_cases hids : valid_clip_ids fs scenes clipPath = []
  · rw [merge_clips, if_pos hids] at h
    exact absurd h (by simp)
  · refine ⟨hids, ?_⟩
    simp only [merge_clips, if_neg hids] at h ⊢
    by_cases hr1 : (normalize_loop env clipPath (render_dir ++ "/_normalized")
        (sorted_ints (valid_clip_ids fs scenes clipPath)) fs).1 = false
    · rw [if_pos hr1] at h
      exact absurd h (by simp)
    · rw [if_neg hr1] at h ⊢
      have hnorm := normalize_loop_cmds_of_success env clipPath
        (render_dir ++ "/_normalized")
        (sorted_ints (valid_clip_ids fs scenes clipPath)) fs
        (by simpa using hr1)
      have hfilter : ((normalize_loop env clipPath
          (render_dir ++ "/_normalized")
          (sorted_ints (valid_clip_ids fs scenes clipPath)) fs).2.2.filter
            is_normalize) =
          (sorted_ints (valid_clip_ids fs scenes clipPath)).map
            (fun i => Cmd.normalizeAudio (clipPath i)
              (norm_dst (render_dir ++ "/_normalized") i)) := by
        rw [hnorm]
        refine List.filter_eq_self.mpr ?_
        intro c hc
        simp only [List.mem_map] at hc
        obtain ⟨i, _, hi⟩ := hc
        subst hi
        rfl
      by_cases hrun : env.run (Cmd.concatClips
          (render_dir ++ "/_normalized" ++ "/concat_list.txt") output) = true
      · rw [if_pos hrun] at h ⊢
        by_cases hcond : shorts = true ∨ chapter_idx = some 0
        · rw [if_pos hcond]
          rw [List.filter_append, List.filter_append, hfilter, filter_cta_nil]
          simp [is_normalize]
        · rw [if_neg hcond]
          rw [List.filter_append, hfilter]
          simp [is_normalize]
      · rw [if_neg hrun] at h
        exact absurd h (by simp)

/-- Witness for C1 (amended): in the counterexample state (clips present only
for scene 1 of {1, 2}), the merge that produced output normalized exactly the
single valid clip of scene 1. -/
theorem merge_concats_exactly_valid_clips_witness :
    valid_clip_ids fs_one_clip [⟨1, "tts", false⟩, ⟨2, "tts", false⟩]
      clip_path_w ≠ [] ∧
    ((merge_clips env_all_ok fs_one_clip [⟨1, "tts", false⟩, ⟨2, "tts", false⟩]
        clip_path_w "render" "final.mp4" false none).2.2.filter is_normalize) =
      (sorted_ints (valid_clip_ids fs_one_clip
        [⟨1, "tts", false⟩, ⟨2, "tts", false⟩] clip_path_w)).map
        (fun i => Cmd.normalizeAudio (clip_path_w i)
          (norm_dst ("render" ++ "/_normalized") i)) :=
  merge_concats_exactly_valid_clips _ _ _ _ _ _ _ _ (by decide)

/-- C4 counterexample: the Chapter Merger's admission check is `size > 1024`
bytes (orchestrator.py line 1072), not the §4.1 video-clip threshold of
1 MiB.  A 2000-byte clip — invalid per the claim, whose premise would demand
failing with no output — is admitted and the merge produces the chapter
file. -/
theorem merge_kib_threshold_counterexample :
    os_path_getsize fs_small_clip (clip_path_w 1) = 2000 ∧
    ¬ os_path_getsize fs_small_clip (clip_path_w 1) > 1024 * 1024 ∧
    (merge_clips env_all_ok fs_small_clip [⟨1, "tts", false⟩]
      clip_path_w "render" "final.mp4" false none).1 = some "final.mp4" ∧
    os_path_exists
      (merge_clips env_all_ok fs_small_clip [⟨1, "tts", false⟩]
        clip_path_w "render" "final.mp4" false none).2.1 "final.mp4" = true :=
  ⟨rfl, by decide, by decide, by decide⟩

/-- C4 (amended): the Merger admits exactly the scene ids whose clip file
exists with size > 1 KiB (1024 bytes) — see `merge_concats_exactly_valid_clips`
for the admitted set — and when no scene id passes that bar it fails
immediately: result `None`, filesystem untouched (no ChapterVideo file
created), and no engine invocation at all (orchestrator.py lines
1069-1077). -/
theorem merge_no_valid_clips_fails (env : Env) (fs : FS)
    (scenes : List SceneData) (clipPath : Int → String)
    (render_dir output : String) (shorts : Bool) (chapter_idx : Option Int)
    (h : valid_clip_ids fs scenes clipPath = []) :
    merge_clips env fs scenes clipPath render_dir output shorts chapter_idx =
      (none, fs, []) := by
  rw [merge_clips, if_pos h]

/-- Witness for C4 (amended): no clip file exists at all, and the merge
returns failure leaving the (empty) filesystem unchanged with zero engine
invocations. -/
theorem merge_no_valid_clips_fails_witness :
    merge_clips env_all_ok no_file [⟨1, "tts", false⟩] clip_path_w
      "render" "final.mp4" false none = (none, no_file, []) :=
  merge_no_valid_clips_fails _ _ _ _ _ _ _ _ (by decide)

/-- C9 counterexample: after a failed subtitle burn-in the intermediate temp
file is NOT left in place.  The base TTS render succeeds and writes
`o_temp.mp4`, the burn-in attempt fails, and the source removes the temp file
before returning the failure (orchestrator.py lines 794-800: `os.remove` runs
whether or not the pass succeeded) — so the render fails with the temp file
gone, contradicting the claim that failed attempts leave their temp files as
diagnostic evidence. -/
theorem failed_burnin_temp_deleted_counterexample :
    (render_scene env_burn_fails fs_burn_inputs [] false "v.mp4" "a.mp3"
      "s.vtt" "o.mp4" 1).2.2 =
      [Cmd.ttsBase "v.mp4" "a.mp3" (some (Rat.divInt 8 5)) 5 "o_temp.mp4" false,
       Cmd.subtitleBurn "o_temp.mp4" "s.vtt" "o.mp4"] ∧
    (render_scene env_burn_fails fs_burn_inputs [] false "v.mp4" "a.mp3"
      "s.vtt" "o.mp4" 1).1 = false ∧
    os_path_exists (render_scene env_burn_fails fs_burn_inputs [] false
      "v.mp4" "a.mp3" "s.vtt" "o.mp4" 1).2.1 "o_temp.mp4" = false :=
  ⟨by decide, by decide, by decide⟩

/-- After a subtitle pass that actually ran a burn-in command, the temp file
is gone from the filesystem — success or failure alike. -/
theorem subtitle_pass_mem_burn (env : Env) (fs : FS)
    (temp_path vtt_path output_path : String) (c0 : Cmd)
    (h0 : ∀ t' v' o', c0 ≠ Cmd.subtitleBurn t' v' o') {t v o : String}
    (hm : Cmd.subtitleBurn t v o ∈
      (subtitle_pass env fs temp_path vtt_path output_path [c0]).2.2) :
    os_path_exists
      (subtitle_pass env fs temp_path vtt_path output_path [c0]).2.1 t =
      false := by
  simp only [subtitle_pass] at hm ⊢
  by_cases hv : os_path_exists fs vtt_path = true ∧
      os_path_getsize fs vtt_path > 10
  · rw [if_pos hv] at hm ⊢
    simp only [List.mem_append, List.mem_singleton] at hm
    rcases hm with hm | hm
    · exact absurd hm (h0 _ _ _).symm
    · have ht : t = temp_path := by
        cases hm
        rfl
      subst ht
      by_cases he : os_path_exists
          (if env.run (Cmd.subtitleBurn t vtt_path output_path) = true then
            fs.set output_path
              (env.outSize (Cmd.subtitleBurn t vtt_path output_path))
          else fs) t = true
      · rw [if_pos he]
        simp [os_path_exists, FS.remove]
      · rw [if_neg he]
        simpa using he
  · rw [if_neg hv] at hm
    simp only [List.mem_singleton] at hm
    exact absurd hm (h0 _ _ _).symm

/-- C9 (amended): a failed base transcode leaves the filesystem as the engine
left it (nothing is deleted), but the subtitle burn-in pass always deletes the
intermediate temp file — on failure as well as on success.  Stated on the
whole renderer: whenever the invocation log of `render_scene` contains a
subtitle burn-in command, the temp file that command consumed is absent from
the resulting filesystem; the per-Scene failure is still only reported through
the boolean result, leaving sibling scenes to proceed. -/
theorem render_scene_burnin_deletes_temp (env : Env) (fs : FS)
    (scenes : List SceneData) (shorts : Bool)
    (video_path audio_path vtt_path output_path : String) (scene_id : Int)
    (t v o : String)
    (hm : Cmd.subtitleBurn t v o ∈
      (render_scene env fs scenes shorts video_path audio_path vtt_path
        output_path scene_id).2.2) :
    os_path_exists
      (render_scene env fs scenes shorts video_path audio_path vtt_path
        output_path scene_id).2.1 t = false := by
  revert hm
  simp only [render_scene]
  repeat' split
  all_goals intro hm
  all_goals first
    | exact subtitle_pass_mem_burn _ _ _ _ _ _
        (fun _ _ _ h => Cmd.noConfusion h) hm
    | simp at hm

/-- Witness for C9 (amended): in the concrete failed-burn-in run the log
contains the burn-in command, and the theorem yields that its temp file
`o_temp.mp4` is absent afterwards. -/
theorem render_scene_burnin_deletes_temp_witness :
    os_path_exists (render_scene env_burn_fails fs_burn_inputs [] false
      "v.mp4" "a.mp3" "s.vtt" "o.mp4" 1).2.1 "o_temp.mp4" = false :=
  render_scene_burnin_deletes_temp _ _ _ _ _ _ _ _ _ "o_temp.mp4" "s.vtt"
    "o.mp4" (by decide)

/-- C10: the CTA Overlay Compositor never fails the merge.  It always returns
the pre-overlay video path; when the end-card asset is missing, or when the
engine rejects the overlay command, the file at that path is unchanged (a
failed attempt's partial output is removed, never the merged video); only on
engine success is the overlaid version moved over the merged video
(orchestrator.py lines 1128-1181; the duration probe cannot raise — it
returns a 0.0 sentinel — and the catch-all `except` likewise returns the
input path). -/
theorem cta_overlay_nonfatal (env : Env) (fs : FS) (video_path : String)
    (is_shorts : Bool)
    (hne : str_replace video_path ".mp4" "_cta.mp4" ≠ video_path) :
    (apply_universal_cta env fs video_path is_shorts).1 = video_path ∧
    (os_path_exists fs veo_cta_path = false →
      (apply_universal_cta env fs video_path is_shorts).2.1 video_path =
        fs video_path) ∧
    (os_path_exists fs veo_cta_path = true →
      env.run (cta_cmd env video_path is_shorts) = false →
      (apply_universal_cta env fs video_path is_shorts).2.1 video_path =
        fs video_path) ∧
    (os_path_exists fs veo_cta_path = true →
      env.run (cta_cmd env video_path is_shorts) = true →
      (apply_universal_cta env fs video_path is_shorts).2.1 video_path =
        some (env.outSize (cta_cmd env video_path is_shorts))) := by
  simp only [apply_universal_cta, cta_cmd]
  by_cases hc : os_path_exists fs veo_cta_path = false
  · rw [if_pos hc]
    refine ⟨rfl, fun _ => rfl, fun h _ => ?_, fun h _ => ?_⟩ <;>
      exact absurd h (by simp [hc])
  · rw [if_neg hc]
    by_cases hr : env.run (Cmd.ctaOverlay video_path veo_cta_path
        (str_replace video_path ".mp4" "_cta.mp4")
        (rat_max 0 (rat_sub (env.dur video_path) 5)) (env.dur video_path)
        is_shorts) = true
    · rw [if_pos hr]
      refine ⟨rfl, fun h => absurd h (by simpa using hc), fun _ h => ?_,
        fun _ _ => ?_⟩
      · rw [hr] at h
        cases h
      · simp only [FS.set, FS.remove, os_path_getsize]
        simp [Ne.symm hne]
    · rw [if_neg hr]
      refine ⟨rfl, fun h => absurd h (by simpa using hc), fun _ _ => ?_,
        fun _ h => absurd h hr⟩
      by_cases he : os_path_exists fs
          (str_replace video_path ".mp4" "_cta.mp4") = true
      · rw [if_pos he]
        simp only [FS.remove]
        rw [if_neg (Ne.symm hne)]
      · rw [if_neg he]

/-- Witness for C10: with the end-card present and the engine failing the
overlay, the compositor still returns the merged path and the merged video's
file entry is untouched; the other conjuncts instantiate alongside. -/
theorem cta_overlay_nonfatal_witness :
    (apply_universal_cta env_cta_fails fs_merged "final.mp4" false).1 =
      "final.mp4" ∧
    (os_path_exists fs_merged veo_cta_path = false →
      (apply_universal_cta env_cta_fails fs_merged "final.mp4" false).2.1
        "final.mp4" = fs_merged "final.mp4") ∧
    (os_path_exists fs_merged veo_cta_path = true →
      env_cta_fails.run (cta_cmd env_cta_fails "final.mp4" false) = false →
      (apply_universal_cta env_cta_fails fs_merged "final.mp4" false).2.1
        "final.mp4" = fs_merged "final.mp4") ∧
    (os_path_exists fs_merged veo_cta_path = true →
      env_cta_fails.run (cta_cmd env_cta_fails "final.mp4" false) = true →
      (apply_universal_cta env_cta_fails fs_merged "final.mp4" false).2.1
        "final.mp4" =
        some (env_cta_fails.outSize (cta_cmd env_cta_fails "final.mp4" false))) :=
  cta_overlay_nonfatal _ _ _ _ (by decide)

/-- C6 counterexample: a slot over an empty candidate corpus (and no manual
entry) produces NO MatchRecord at all — the audit list for a one-slot input is
empty, not a one-element list with an unassigned record; the source only logs
"No match found!" and appends nothing (orchestrator.py line 995). -/
theorem unassigned_slot_no_record_counterexample :
    (assemble_intro_loop score_zero no_chapter_pm intro_dst no_manual []
      [⟨10⟩] [] no_file).1 = [] := by decide

/-- C6 (amended): the persisted audit output has at most one MatchRecord per
slot — in slot order, each appearing record carrying that slot's id and an
assignment (manual or auto) — and a slot that cannot be assigned (empty
candidate corpus, or unresolvable manual entry with no automatic fallback) is
omitted from the output rather than recorded as unassigned.  Formally: the
record-wise slot ids form a sublist of the input slot ids. -/
theorem assemble_records_sublist (score : IntroScene → SourceScene → ℚ)
    (chPm : Int → Option (Int → String)) (introPath : Int → String)
    (manual_map : Int → Option ManualEntry) (catalog : List SourceScene) :
    ∀ (slots : List IntroScene) (used : List (Int × Int)) (fs : FS),
      List.Sublist
        ((assemble_intro_loop score chPm introPath manual_map catalog slots
          used fs).1.map (fun r => r.intro_scene))
        (slots.map (fun s => s.id))
  | [], _, _ => by simp [assemble_intro_loop]
  | slot :: rest, used, fs => by
      rw [assemble_intro_loop]
      rcases hmm : manual_map slot.id with _ | entry
      · simp only [hmm]
        rcases hbb : (select_best_loop (score slot) used catalog (-1) none).2
          with _ | src
        · simp only [hbb]
          exact (assemble_records_sublist score chPm introPath manual_map
            catalog rest _ _).cons _
        · simp only [hbb, List.map_cons]
          exact (assemble_records_sublist score chPm introPath manual_map
            catalog rest _ _).cons₂ _
      · rcases hpm : chPm entry.source_chapter with _ | pathf
        · simp only [hmm, hpm]
          rcases hbb : (select_best_loop (score slot) used catalog (-1) none).2
            with _ | src
          · simp only [hbb]
            exact (assemble_records_sublist score chPm introPath manual_map
              catalog rest _ _).cons _
          · simp only [hbb, List.map_cons]
            exact (assemble_records_sublist score chPm introPath manual_map
              catalog rest _ _).cons₂ _
        · simp only [hmm, hpm]
          by_cases hex : os_path_exists fs (pathf entry.source_scene) = true
          · rw [if_pos hex]
            simp only [List.map_cons]
            exact (assemble_records_sublist score chPm introPath manual_map
              catalog rest _ _).cons₂ _
          · rw [if_neg hex]
            simp only
            rcases hbb : (select_best_loop (score slot) used catalog (-1)
              none).2 with _ | src
            · simp only [hbb]
              exact (assemble_records_sublist score chPm introPath manual_map
                catalog rest _ _).cons _
            · simp only [hbb, List.map_cons]
              exact (assemble_records_sublist score chPm introPath manual_map
                catalog rest _ _).cons₂ _

/-- C7: a slot with a manual-map entry whose chapter resolves and whose
referenced source footage is on disk is assigned that entry with
`method = manual` (orchestrator.py lines 918-947), independently of the
scoring function — the automatic scorer is never consulted for the slot, so
even an automatic candidate of arbitrarily high score cannot displace the
curated entry. -/
theorem manual_override_wins (score : IntroScene → SourceScene → ℚ)
    (chPm : Int → Option (Int → String)) (introPath : Int → String)
    (manual_map : Int → Option ManualEntry) (catalog : List SourceScene)
    (slot : IntroScene) (rest : List IntroScene) (used : List (Int × Int))
    (fs : FS) (entry : ManualEntry) (pathf : Int → String)
    (hmm : manual_map slot.id = some entry)
    (hpm : chPm entry.source_chapter = some pathf)
    (hex : os_path_exists fs (pathf entry.source_scene) = true) :
    ((assemble_intro_loop score chPm introPath manual_map catalog
      (slot :: rest) used fs).1).head? =
      some ⟨slot.id, entry.source_chapter, entry.source_scene,
        MatchMethod.manual⟩ := by
  rw [assemble_intro_loop]
  simp only [hmm, hpm, if_pos hex]
  rfl

/-- Witness for C7: slot 10 carries a valid manual entry (chapter 3, scene 4,
present on disk) while both automatic candidates score a perfect 1.0; the
slot is still assigned the manual entry. -/
theorem manual_override_wins_witness :
    ((assemble_intro_loop score_high ch_pm_w intro_dst manual_map_w catalog_ab
      [⟨10⟩] [] fs_manual).1).head? =
      some ⟨10, 3, 4, MatchMethod.manual⟩ :=
  manual_override_wins _ _ _ _ _ _ _ _ _ ⟨3, 4⟩ _ rfl rfl (by decide)

/-- The running maximum of the candidate loop never decreases below its
starting value. -/
theorem select_best_loop_ge (score : SourceScene → ℚ)
    (used : List (Int × Int)) :
    ∀ (l : List SourceScene) (b : ℚ) (s : Option SourceScene),
      b ≤ (select_best_loop score used l b s).1
  | [], _, _ => le_refl _
  | src :: rest, b, s => by
      rw [select_best_loop]
      by_cases h : penalized score used src > b
      · rw [if_pos h]
        exact le_trans (le_of_lt h) (select_best_loop_ge score used rest _ _)
      · rw [if_neg h]
        exact select_best_loop_ge score used rest b s

/-- Every candidate's penalized score is bounded by the loop's final
maximum. -/
theorem select_best_loop_ub (score : SourceScene → ℚ)
    (used : List (Int × Int)) :
    ∀ (l : List SourceScene) (b : ℚ) (s : Option SourceScene),
      ∀ c ∈ l, penalized score used c ≤ (select_best_loop score used l b s).1
  | src :: rest, b, s, c, hc => by
      rw [select_best_loop]
      rcases List.mem_cons.mp hc with hc | hc
      · subst hc
        by_cases h : penalized score used c > b
        · rw [if_pos h]
          exact select_best_loop_ge score used rest _ _
        · rw [if_neg h]
          exact le_trans (not_lt.mp h) (select_best_loop_ge score used rest _ _)
      · by_cases h : penalized score used src > b
        · rw [if_pos h]
          exact select_best_loop_ub score used rest _ _ c hc
        · rw [if_neg h]
          exact select_best_loop_ub score used rest _ _ c hc

/-- If no candidate strictly beats the running maximum, the loop returns its
accumulator unchanged. -/
theorem select_best_loop_none (score : SourceScene → ℚ)
    (used : List (Int × Int)) :
    ∀ (l : List SourceScene) (b : ℚ) (s : Option SourceScene),
      (∀ c ∈ l, ¬ b < penalized score used c) →
      select_best_loop score used l b s = (b, s)
  | [], _, _, _ => rfl
  | src :: rest, b, s, h => by
      rw [select_best_loop]
      rw [if_neg (by exact h src (List.mem_cons_self src rest))]
      exact select_best_loop_none score used rest b s
        (fun c hc => h c (List.mem_cons_of_mem src hc))

/-- When some candidate strictly beats the start value, the loop returns the
first candidate attaining the maximum penalized score: the result equals
`(penalized c, some c)` for a member `c`, and `find?` for "penalized at least
the winner's" returns exactly `c` (earlier candidates are all strictly
smaller). -/
theorem select_best_loop_found (score : SourceScene → ℚ)
    (used : List (Int × Int)) :
    ∀ (l : List SourceScene) (b : ℚ) (s : Option SourceScene),
      (∃ c ∈ l, b < penalized score used c) →
      ∃ c ∈ l,
        select_best_loop score used l b s = (penalized score used c, some c) ∧
        l.find? (fun c' =>
          decide (penalized score used c ≤ penalized score used c')) = some c
  | src :: rest, b, s, hex => by
      rw [select_best_loop]
      by_cases h : penalized score used src > b
      · rw [if_pos h]
        by_cases h2 : ∃ c ∈ rest, penalized score used src < penalized score
            used c
        · obtain ⟨c, hcmem, heq, hfind⟩ := select_best_loop_found score used
            rest (penalized score used src) (some src) h2
          refine ⟨c, List.mem_cons_of_mem src hcmem, heq, ?_⟩
          rw [List.find?_cons_of_neg, hfind]
          obtain ⟨c'', hc''mem, hc''⟩ := h2
          have hle : penalized score used c'' ≤ penalized score used c := by
            have := select_best_loop_ub score used rest
              (penalized score used src) (some src) c'' hc''mem
            rw [heq] at this
            exact this
          simp only [decide_eq_true_eq]
          exact not_le.mpr (lt_of_lt_of_le hc'' hle)
        · push_neg at h2
          have hres := select_best_loop_none score used rest
            (penalized score used src) (some src)
            (fun c hc => not_lt.mpr (h2 c hc))
          refine ⟨src, List.mem_cons_self src rest, hres, ?_⟩
          rw [List.find?_cons_of_pos]
          simp
      · rw [if_neg h]
        obtain ⟨c0, hc0mem, hc0⟩ := hex
        have hc0rest : c0 ∈ rest := by
          rcases List.mem_cons.mp hc0mem with he | hr
          · exact absurd (he ▸ hc0) h
          · exact hr
        obtain ⟨c, hcmem, heq, hfind⟩ := select_best_loop_found score used
          rest b s ⟨c0, hc0rest, hc0⟩
        refine ⟨c, List.mem_cons_of_mem src hcmem, heq, ?_⟩
        rw [List.find?_cons_of_neg, hfind]
        have hle : penalized score used c0 ≤ penalized score used c := by
          have := select_best_loop_ub score used rest b s c0 hc0rest
          rw [heq] at this
          exact this
        have hsrc : penalized score used src ≤ b := not_lt.mp h
        simp only [decide_eq_true_eq]
        exact not_le.mpr (lt_of_le_of_lt hsrc (lt_of_lt_of_le hc0 hle))

/-- C8: a slot with no manual entry, resolved over a non-empty candidate
corpus of non-negative composite scores, is assigned (method = auto) the
candidate maximizing the penalized score — composite score minus a flat 0.3
exactly when the candidate's (chapter, scene) key was already assigned to an
earlier slot this run — with ties broken in favor of the earliest candidate in
corpus order (the source's strict `>` update, orchestrator.py lines
955-969). -/
theorem auto_assign_max_penalized (score : IntroScene → SourceScene → ℚ)
    (chPm : Int → Option (Int → String)) (introPath : Int → String)
    (manual_map : Int → Option ManualEntry) (catalog : List SourceScene)
    (slot : IntroScene) (rest : List IntroScene) (used : List (Int × Int))
    (fs : FS)
    (hmm : manual_map slot.id = none)
    (hne : catalog ≠ [])
    (hpos : ∀ c ∈ catalog, 0 ≤ score slot c) :
    ∃ c ∈ catalog,
      ((assemble_intro_loop score chPm introPath manual_map catalog
        (slot :: rest) used fs).1).head? =
        some ⟨slot.id, c.chapter_idx, c.scene_id, MatchMethod.auto⟩ ∧
      (∀ c' ∈ catalog,
        penalized (score slot) used c' ≤ penalized (score slot) used c) ∧
      catalog.find? (fun c' =>
        decide (penalized (score slot) used c ≤
          penalized (score slot) used c')) = some c := by
  obtain ⟨c0, hc0⟩ := List.exists_mem_of_ne_nil catalog hne
  have hgt : ∃ c ∈ catalog, (-1 : ℚ) < penalized (score slot) used c := by
    refine ⟨c0, hc0, ?_⟩
    have hp := hpos c0 hc0
    unfold penalized
    rw [rat_sub_eq]
    split
    · rw [divInt_3_10]
      linarith
    · linarith
  obtain ⟨c, hcmem, heq, hfind⟩ := select_best_loop_found (score slot) used
    catalog (-1) none hgt
  refine ⟨c, hcmem, ?_, ?_, hfind⟩
  · rw [assemble_intro_loop]
    simp only [hmm, heq]
    rfl
  · intro c' hc'
    have := select_best_loop_ub (score slot) used catalog (-1) none c' hc'
    rw [heq] at this
    exact this

/-- Witness for C8 at the claim's numbers, with candidate B already used by an
earlier slot: at raw 0.85 B's penalized 0.55 loses to unused A's 0.60, at raw
0.95 B's penalized 0.65 still wins; the existential instantiates the theorem
itself on the first scenario. -/
theorem auto_assign_max_penalized_witness :
    ((assemble_intro_loop score_ab no_chapter_pm intro_dst no_manual
      catalog_ab [⟨10⟩] [(2, 2)] no_file).1).head? =
      some ⟨10, 1, 1, MatchMethod.auto⟩ ∧
    ((assemble_intro_loop score_ab2 no_chapter_pm intro_dst no_manual
      catalog_ab [⟨10⟩] [(2, 2)] no_file).1).head? =
      some ⟨10, 2, 2, MatchMethod.auto⟩ ∧
    ∃ c ∈ catalog_ab,
      ((assemble_intro_loop score_ab no_chapter_pm intro_dst no_manual
        catalog_ab [⟨10⟩] [(2, 2)] no_file).1).head? =
        some ⟨10, c.chapter_idx, c.scene_id, MatchMethod.auto⟩ ∧
      (∀ c' ∈ catalog_ab,
        penalized (score_ab ⟨10⟩) [(2, 2)] c' ≤
          penalized (score_ab ⟨10⟩) [(2, 2)] c) ∧
      catalog_ab.find? (fun c' =>
        decide (penalized (score_ab ⟨10⟩) [(2, 2)] c ≤
          penalized (score_ab ⟨10⟩) [(2, 2)] c')) = some c :=
  ⟨by decide, by decide,
   auto_assign_max_penalized _ _ _ _ _ _ _ _ _ rfl (by decide) (by decide)⟩

end AnimGen
